import Mathlib

/-!
Verification of the LOIL launcher server (src/main.go) against its
specification. The Go program is embedded shallowly: the filesystem is a
map from paths to optional byte lists, HTTP requests and responses are
records, handlers are pure functions that also return the list of
filesystem operations they perform, and transient I/O failures of the
individual OS calls (open, fstat, hash read) are injected through an
explicit `Faults` record. The MD5 core from Go's crypto/md5 and the JSON
decoder from encoding/json are external library code, so they are taken
as parameters (`md5` produces the 16 digest bytes; `parse` decodes the
news file); everything else (hex encoding, header plumbing, routing,
logging, client-IP resolution, configuration defaults) is translated
directly from the source.
-/

namespace LoilServer

/-- Bytes of a file, each entry below 256. -/
abbrev Bytes := List Nat

/-- The filesystem: maps a path to the contents of the file there,
`none` when no file exists at the path. -/
abbrev FS := String → Option Bytes

/-- HTTP headers, keyed by name; `none` means the header is unset.
Models Go's `w.Header()` with `Set` semantics (each `Set` replaces). -/
abbrev Headers := String → Option String

/-- Headers of a fresh `http.ResponseWriter`: nothing set. -/
def emptyHeaders : Headers := fun _ => none

/-- `w.Header().Set(k, v)`: replaces any previous value of `k`. -/
def setHeader (h : Headers) (k v : String) : Headers :=
  fun k2 => if k2 = k then some v else h k2

/-- JSON values, used to model what `encoding/json` marshals. -/
inductive Json where
  | str (s : String)
  | num (n : Int)
  | arr (xs : List Json)
  | obj (fields : List (String × Json))
  | null

/-- The body written to the response: a raw file stream (`io.Copy`),
a JSON value (`json.NewEncoder(w).Encode`), plain text (`http.Error`),
or nothing. -/
inductive Body where
  | bytes (bs : Bytes)
  | json (j : Json)
  | text (s : String)
  | empty

/-- An HTTP response as observed by the client: status code, headers,
body. -/
structure Response where
  status : Nat
  headers : Headers
  body : Body

/-- Filesystem operations a handler performs, in order. `stat` and
`open` and `read` are reads of metadata or contents; `mkdir` and
`append` are writes. -/
inductive FsOp where
  | stat (path : String)
  | openFile (path : String)
  | read (path : String)
  | mkdir (path : String)
  | append (path : String) (data : String)

/-- The parts of an inbound request the program looks at. Header
accesses `r.Header.Get` return the empty string when a header is
absent, exactly as in Go, so the two header fields are plain strings. -/
structure Request where
  method : String
  path : String
  xRealIP : String
  xForwardedFor : String
  remoteAddr : String

/-- The wall clock at the moment of the request: `time.Now()` formatted
as `2006-01-02` and as `2006-01-02 15:04:05`. -/
structure Time where
  date : String
  dateTime : String

/-- Transient failures of the OS calls inside `serveFileDownload`:
`os.Open` failing on an existing file, `file.Stat` failing after a
successful open, and the re-open or `io.Copy` inside
`calculateFileHash` failing. -/
structure Faults where
  openFault : Bool
  statFault : Bool
  hashFault : Bool

/-- Normal operation: every OS call succeeds. -/
def noFaults : Faults := ⟨false, false, false⟩

/-- One hex digit, lowercase, as produced by Go's `encoding/hex`. -/
def hexDigit (n : Nat) : Char :=
  if n < 10 then Char.ofNat (48 + n) else Char.ofNat (87 + n)

/-- `hex.EncodeToString`: two lowercase hex digits per byte. -/
def hexEncode : Bytes → String
  | [] => ""
  | b :: bs => String.mk [hexDigit (b / 16), hexDigit (b % 16)] ++ hexEncode bs

/-- Does `front` occur at the start of `hay`? -/
def leadsList : List Char → List Char → Bool
  | [], _ => true
  | _ :: _, [] => false
  | a :: as, b :: bs => a = b && leadsList as bs

/-- Does `needle` occur contiguously inside `hay`? -/
def listInfix (needle : List Char) : List Char → Bool
  | [] => needle.isEmpty
  | c :: t => leadsList needle (c :: t) || listInfix needle t

/-- Substring occurrence on strings, used to state that a message is
(or is not) interpolated into a response body. -/
def containsSub (hay needle : String) : Bool :=
  listInfix needle.data hay.data

/-- `filepath.Join(dir, name)` for the plain relative names used by the
configuration (no trailing separators, no dot segments to clean). -/
def joinPath (dir name : String) : String := dir ++ "/" ++ name

/-- Splits a character list at every occurrence of `sep`, like Go's
`strings.Split` on a one-character separator. -/
def splitOnChar (sep : Char) : List Char → List (List Char)
  | [] => [[]]
  | c :: t =>
    if c = sep then [] :: splitOnChar sep t
    else
      match splitOnChar sep t with
      | h :: r => (c :: h) :: r
      | [] => [[c]]

/-- The whitespace characters `strings.TrimSpace` removes (the ASCII
ones, which are the only ones arising in HTTP header values). -/
def isSpaceChar (c : Char) : Bool :=
  c = ' ' || c = '\t' || c = '\n' || c = '\r' || c = '\x0b' || c = '\x0c'

/-- `strings.TrimSpace` on a character list. -/
def trimChars (cs : List Char) : List Char :=
  ((cs.dropWhile isSpaceChar).reverse.dropWhile isSpaceChar).reverse

/-- `filepath.Base`: the last path component. -/
def baseName (s : String) : String :=
  String.mk ((splitOnChar '/' s.data).getLastD s.data)

/-- Splits a character list at its LAST colon, giving the parts before
and after it; `none` when there is no colon. Mirrors the
`last-index-of-colon` search inside Go's `net.SplitHostPort`. -/
def lastColonSplit : List Char → Option (List Char × List Char)
  | [] => none
  | c :: rest =>
    match lastColonSplit rest with
    | some (a, b) => some (c :: a, b)
    | none => if c = ':' then some ([], rest) else none

/-- The host part that `net.SplitHostPort` returns, and the empty
string when it errors (the Go call site discards the error, leaving
`ip` empty). Faithful to Go on well-formed `host:port` and
`[host]:port` addresses; inputs with no colon, a colon inside an
unbracketed host, or unbalanced brackets yield an error, hence "". -/
def splitHostPortHost (s : String) : String :=
  match lastColonSplit s.data with
  | none => ""
  | some (host, _) =>
    match host with
    | '[' :: rest =>
      if rest.getLastD ' ' = ']' then String.mk rest.dropLast else ""
    | _ => if host.contains ':' then "" else String.mk host

/-- `getClientIP` from src/main.go: `X-Real-IP` if non-empty, else the
first comma-separated entry of `X-Forwarded-For` trimmed (only when
that header is non-empty), and if the result is still empty, the host
part of `r.RemoteAddr`. -/
def getClientIP (req : Request) : String :=
  let ip0 := req.xRealIP
  let ip1 :=
    if ip0 = "" then
      let f := req.xForwardedFor
      if f ≠ "" then String.mk (trimChars ((splitOnChar ',' f.data).headD []))
      else f
    else ip0
  if ip1 = "" then splitHostPortHost req.remoteAddr else ip1

/-- The server configuration record from src/main.go. -/
structure Config where
  ServerPort : String
  LauncherClient : String
  GameClient : String
  LauncherVersion : String
  GameVersion : String
  ClientsDir : String

/-- `getEnv` from src/main.go: the environment value when non-empty,
otherwise the default. `os.Getenv` returns "" both for unset and for
empty variables, so the environment is a total map to strings. -/
def getEnv (env : String → String) (key defaultValue : String) : String :=
  if env key ≠ "" then env key else defaultValue

/-- `loadConfig` from src/main.go, applied to the environment as it
stands after `godotenv.Load()` has merged the `.env` file (the load
error path aborts startup and is outside this per-request model). -/
def loadConfig (env : String → String) : Config :=
  { ServerPort := getEnv env "SERVER_PORT" "8080"
    LauncherClient := getEnv env "LAUNCHER_CLIENT_FILE" "launcher.exe"
    GameClient := getEnv env "GAME_CLIENT_FILE" "Loil.exe"
    LauncherVersion := getEnv env "LAUNCHER_VERSION" "0.0.0"
    GameVersion := getEnv env "GAME_VERSION" "0.0.0"
    ClientsDir := getEnv env "CLIENTS_DIR" "clients" }

/-- A news entry (struct `NewsItem` in src/main.go). -/
structure NewsItem where
  ID : Int
  Title : String
  Content : String
  Image : String
  Date : String

/-- What `encoding/json` marshals one `NewsItem` to: an object with
the five tagged fields in struct order. -/
def encodeNewsItem (n : NewsItem) : Json :=
  .obj [("id", .num n.ID), ("title", .str n.Title),
        ("content", .str n.Content), ("image", .str n.Image),
        ("date", .str n.Date)]

/-- What `encoding/json` marshals `NewsResponse{News: items}` to. -/
def encodeNewsResponse (items : List NewsItem) : Json :=
  .obj [("news", .arr (items.map encodeNewsItem))]

/-- Reads the five fields back out of a marshalled news object. -/
def newsFields : Json → Option (Int × String × String × String × String)
  | .obj [("id", .num i), ("title", .str t), ("content", .str c),
          ("image", .str im), ("date", .str d)] => some (i, t, c, im, d)
  | _ => none

/-- The message of the `*os.PathError` that `os.Stat` produces for a
missing path — the "underlying error" of the download 404 branch,
which the code logs but never interpolates into the response. -/
def statErrorMessage (path : String) : String :=
  "stat " ++ path ++ ": no such file or directory"

/-- `http.Error(w, msg, code)`: sets the plain-text content type and
the nosniff header, writes the status, and writes `msg` plus a
newline as the body. -/
def httpError (h : Headers) (code : Nat) (msg : String) : Response :=
  { status := code
    headers := setHeader (setHeader h "Content-Type" "text/plain; charset=utf-8")
      "X-Content-Type-Options" "nosniff"
    body := .text (msg ++ "\n") }

/-- `calculateFileHash` from src/main.go: opens the file again and
streams it through `md5.New()`, returning the hex digest. The open
fails when the path has no file; `hashFault` injects a transient
read failure of this second pass. -/
def calculateFileHash (md5 : Bytes → Bytes) (fs : FS) (hashFault : Bool)
    (filename : String) : Except String String :=
  match fs filename with
  | none => .error ("open " ++ filename ++ ": no such file or directory")
  | some contents =>
    if hashFault then .error ("read " ++ filename ++ ": input/output error")
    else .ok (hexEncode (md5 contents))

/-- `serveFileDownload` from src/main.go: 404 when `os.Stat` says the
file does not exist, 500 when the open or the fstat fails, otherwise
the attachment headers, the optional `X-File-Hash` (skipped when the
hash came back empty because `calculateFileHash` failed), and the
file bytes as the body. -/
def serveFileDownload (md5 : Bytes → Bytes) (fs : FS) (fl : Faults)
    (h : Headers) (filePath : String) : Response × List FsOp :=
  match fs filePath with
  | none => (httpError h 404 "Файл не найден", [.stat filePath])
  | some contents =>
    if fl.openFault then
      (httpError h 500 "Ошибка открытия файла", [.stat filePath, .openFile filePath])
    else if fl.statFault then
      (httpError h 500 "Ошибка получения информации о файле",
       [.stat filePath, .openFile filePath])
    else
      let hash :=
        match calculateFileHash md5 fs fl.hashFault filePath with
        | .ok s => s
        | .error _ => ""
      let h1 := setHeader h "Content-Disposition"
        ("attachment; filename=" ++ baseName filePath)
      let h2 := setHeader h1 "Content-Type" "application/octet-stream"
      let h3 := setHeader h2 "Content-Length" (toString contents.length)
      let h4 := if hash ≠ "" then setHeader h3 "X-File-Hash" hash else h3
      ({ status := 200, headers := h4, body := .bytes contents },
       [.stat filePath, .openFile filePath, .read filePath, .read filePath])

/-- The three CORS headers every handler sets first. -/
def corsHeaders (h : Headers) : Headers :=
  setHeader (setHeader (setHeader h
    "Access-Control-Allow-Origin" "*")
    "Access-Control-Allow-Methods" "GET, OPTIONS")
    "Access-Control-Allow-Headers" "Content-Type"

/-- The daily access-log path `logs/access_<YYYY-MM-DD>.log`. -/
def logFilePath (t : Time) : String := "logs/access_" ++ t.date ++ ".log"

/-- The line `logToFile` appends: `[timestamp] ip endpoint - emoji`. -/
def logEntry (t : Time) (clientIP endpoint emoji : String) : String :=
  "[" ++ t.dateTime ++ "] " ++ clientIP ++ " " ++ endpoint ++ " - " ++ emoji ++ "\n"

/-- The filesystem writes `logToFile` performs: create the log
directory, then append one entry to the daily file. -/
def logToFileOps (t : Time) (clientIP endpoint emoji : String) : List FsOp :=
  [.mkdir "logs", .append (logFilePath t) (logEntry t clientIP endpoint emoji)]

/-- `handleWithCORS` from src/main.go: sets the CORS headers, answers
OPTIONS with a bare 200 and no body before any handler logic, and
otherwise runs the handler and then appends the access-log line. -/
def handleWithCORS (t : Time) (req : Request) (emoji endpoint : String)
    (handler : Headers → Response × List FsOp) : Response × List FsOp :=
  let h := corsHeaders emptyHeaders
  if req.method = "OPTIONS" then
    ({ status := 200, headers := h, body := .empty }, [])
  else
    let r := handler h
    (r.1, r.2 ++ logToFileOps t (getClientIP req) endpoint emoji)

/-- `loadNews` from src/main.go: read `news/news.json` and decode it.
`parse` stands for `json.Unmarshal` into `[]NewsItem`. -/
def loadNews (parse : Bytes → Except String (List NewsItem)) (fs : FS) :
    Except String (List NewsItem) :=
  match fs "news/news.json" with
  | none => .error "open news/news.json: no such file or directory"
  | some data => parse data

/-- The news handler: 500 with the interpolated load error, or the
marshalled `NewsResponse`. -/
def newsHandler (parse : Bytes → Except String (List NewsItem)) (fs : FS)
    (t : Time) (req : Request) : Response × List FsOp :=
  handleWithCORS t req "📰" "/api/news" fun h =>
    match loadNews parse fs with
    | .error e =>
      (httpError h 500 ("Ошибка загрузки новостей: " ++ e),
       [.read "news/news.json"])
    | .ok items =>
      ({ status := 200, headers := h, body := .json (encodeNewsResponse items) },
       [.read "news/news.json"])

/-- The version handler: the two configured version strings as JSON. -/
def versionHandler (cfg : Config) (t : Time) (req : Request) :
    Response × List FsOp :=
  handleWithCORS t req "🔖" "/api/version" fun h =>
    ({ status := 200, headers := h
       body := .json (.obj [("launcher_version", .str cfg.LauncherVersion),
                            ("game_version", .str cfg.GameVersion)]) }, [])

/-- The launcher download handler: resolves the path under the clients
directory and delegates to `serveFileDownload`. -/
def downloadLauncherHandler (cfg : Config) (md5 : Bytes → Bytes) (fs : FS)
    (fl : Faults) (t : Time) (req : Request) : Response × List FsOp :=
  handleWithCORS t req "⬇️" "/api/download/launcher" fun h =>
    serveFileDownload md5 fs fl h (joinPath cfg.ClientsDir cfg.LauncherClient)

/-- The game download handler. -/
def downloadGameHandler (cfg : Config) (md5 : Bytes → Bytes) (fs : FS)
    (fl : Faults) (t : Time) (req : Request) : Response × List FsOp :=
  handleWithCORS t req "⬇️" "/api/download/game" fun h =>
    serveFileDownload md5 fs fl h (joinPath cfg.ClientsDir cfg.GameClient)

/-- The four API routes registered in `main` (the `/images/` static
mount is a stock `http.FileServer` and is not part of any claim). -/
def apiPaths : List String :=
  ["/api/news", "/api/version", "/api/download/launcher", "/api/download/game"]

/-- Dispatch of an API request to its handler, `none` off the API
surface. -/
def serveAPI (cfg : Config) (md5 : Bytes → Bytes)
    (parse : Bytes → Except String (List NewsItem)) (fs : FS) (fl : Faults)
    (t : Time) (req : Request) : Option (Response × List FsOp) :=
  if req.path = "/api/news" then some (newsHandler parse fs t req)
  else if req.path = "/api/version" then some (versionHandler cfg t req)
  else if req.path = "/api/download/launcher" then
    some (downloadLauncherHandler cfg md5 fs fl t req)
  else if req.path = "/api/download/game" then
    some (downloadGameHandler cfg md5 fs fl t req)
  else none

/-- The file a download endpoint resolves to: the configured filename
for the kind, joined under the clients directory. -/
def downloadTarget (cfg : Config) (p : String) : Option String :=
  if p = "/api/download/launcher" then
    some (joinPath cfg.ClientsDir cfg.LauncherClient)
  else if p = "/api/download/game" then
    some (joinPath cfg.ClientsDir cfg.GameClient)
  else none

/-- The append operations among a handler's filesystem operations. -/
def appendsOf (ops : List FsOp) : List (String × String) :=
  ops.filterMap fun op =>
    match op with
    | .append p l => some (p, l)
    | _ => none

/-! ## Helper lemmas -/

/-- The hex encoding of a nonempty byte list is a nonempty string, so
`serveFileDownload` never confuses a successful digest with the empty
sentinel it uses for a failed one. -/
theorem hexEncode_ne_nil (bs : Bytes) (h : bs ≠ []) : hexEncode bs ≠ "" := by
  cases bs with
  | nil => exact absurd rfl h
  | cons b t =>
    intro hc
    have h3 := congrArg String.data hc
    have h4 : (hexEncode (b :: t)).data =
        hexDigit (b / 16) :: hexDigit (b % 16) :: (hexEncode t).data := rfl
    rw [h4] at h3
    simp at h3

/-- Reading back the header just set. -/
theorem setHeader_same (h : Headers) (k v : String) : setHeader h k v k = some v := by
  simp [setHeader]

/-- Setting one header leaves the others unchanged. -/
theorem setHeader_other (h : Headers) (k v k2 : String) (hne : k2 ≠ k) :
    setHeader h k v k2 = h k2 := by
  simp [setHeader, hne]

/-- `appendsOf` distributes over concatenation. -/
theorem appendsOf_append (a b : List FsOp) :
    appendsOf (a ++ b) = appendsOf a ++ appendsOf b := by
  simp [appendsOf]

/-- `serveFileDownload` never writes to the filesystem. -/
theorem serveFileDownload_no_append (md5 : Bytes → Bytes) (fs : FS) (fl : Faults)
    (h : Headers) (p : String) :
    appendsOf (serveFileDownload md5 fs fl h p).2 = [] := by
  unfold serveFileDownload
  cases fs p with
  | none => simp [appendsOf]
  | some contents =>
    by_cases h1 : fl.openFault <;> by_cases h2 : fl.statFault <;>
      simp [h1, h2, appendsOf]

/-- The successful download path, as one equation: all faults off and
the file present yields the attachment headers including the digest,
and the file bytes as the body. -/
theorem serveFileDownload_ok (md5 : Bytes → Bytes) (fs : FS) (h : Headers)
    (p : String) (bytes : Bytes) (hfs : fs p = some bytes)
    (hmd5 : md5 bytes ≠ []) :
    serveFileDownload md5 fs noFaults h p =
      ({ status := 200
         headers := setHeader (setHeader (setHeader (setHeader h
           "Content-Disposition" ("attachment; filename=" ++ baseName p))
           "Content-Type" "application/octet-stream")
           "Content-Length" (toString bytes.length))
           "X-File-Hash" (hexEncode (md5 bytes))
         body := .bytes bytes },
       [.stat p, .openFile p, .read p, .read p]) := by
  have hne : hexEncode (md5 bytes) ≠ "" := hexEncode_ne_nil _ hmd5
  simp [serveFileDownload, hfs, noFaults, calculateFileHash, hne]

/-- The download path when only the hash pass fails: same status,
headers and body, but no `X-File-Hash`. -/
theorem serveFileDownload_hashFault (md5 : Bytes → Bytes) (fs : FS) (h : Headers)
    (p : String) (bytes : Bytes) (hfs : fs p = some bytes) :
    serveFileDownload md5 fs ⟨false, false, true⟩ h p =
      ({ status := 200
         headers := setHeader (setHeader (setHeader h
           "Content-Disposition" ("attachment; filename=" ++ baseName p))
           "Content-Type" "application/octet-stream")
           "Content-Length" (toString bytes.length)
         body := .bytes bytes },
       [.stat p, .openFile p, .read p, .read p]) := by
  simp [serveFileDownload, hfs, calculateFileHash]

/-! ## Claim theorems -/

/-- C10: for every configuration key, an unset or empty environment
variable (both observed as "" by `os.Getenv`) makes `loadConfig` use
the documented default, so an empty value can never override one. -/
theorem config_empty_env_uses_defaults (env : String → String) :
    (env "SERVER_PORT" = "" → (loadConfig env).ServerPort = "8080") ∧
    (env "LAUNCHER_CLIENT_FILE" = "" → (loadConfig env).LauncherClient = "launcher.exe") ∧
    (env "GAME_CLIENT_FILE" = "" → (loadConfig env).GameClient = "Loil.exe") ∧
    (env "LAUNCHER_VERSION" = "" → (loadConfig env).LauncherVersion = "0.0.0") ∧
    (env "GAME_VERSION" = "" → (loadConfig env).GameVersion = "0.0.0") ∧
    (env "CLIENTS_DIR" = "" → (loadConfig env).ClientsDir = "clients") := by
  refine ⟨fun h => ?_, fun h => ?_, fun h => ?_, fun h => ?_, fun h => ?_, fun h => ?_⟩ <;>
    simp [loadConfig, getEnv, h]

/-- Witness for C10: the all-empty environment yields every default. -/
theorem config_empty_env_uses_defaults_witness :
    (loadConfig fun _ => "").ServerPort = "8080" ∧
    (loadConfig fun _ => "").LauncherClient = "launcher.exe" ∧
    (loadConfig fun _ => "").GameClient = "Loil.exe" ∧
    (loadConfig fun _ => "").LauncherVersion = "0.0.0" ∧
    (loadConfig fun _ => "").GameVersion = "0.0.0" ∧
    (loadConfig fun _ => "").ClientsDir = "clients" :=
  ⟨(config_empty_env_uses_defaults fun _ => "").1 rfl,
   (config_empty_env_uses_defaults fun _ => "").2.1 rfl,
   (config_empty_env_uses_defaults fun _ => "").2.2.1 rfl,
   (config_empty_env_uses_defaults fun _ => "").2.2.2.1 rfl,
   (config_empty_env_uses_defaults fun _ => "").2.2.2.2.1 rfl,
   (config_empty_env_uses_defaults fun _ => "").2.2.2.2.2 rfl⟩

/-- The client-IP precedence exactly as the claim words it: the
`X-Forwarded-For` branch applies whenever that HEADER is non-empty,
even if its first entry trims to the empty string. -/
def claimedClientIP (req : Request) : String :=
  if req.xRealIP ≠ "" then req.xRealIP
  else if req.xForwardedFor ≠ "" then
    String.mk (trimChars ((splitOnChar ',' req.xForwardedFor.data).headD []))
  else splitHostPortHost req.remoteAddr

/-- C8 counterexample: with `X-Real-IP` empty and `X-Forwarded-For`
a single space, the claimed precedence yields the empty trimmed entry,
but `getClientIP` falls through to the remote-address host. -/
theorem clientIP_precedence_counterexample :
    claimedClientIP ⟨"GET", "/api/news", "", " ", "203.0.113.7:443"⟩ = "" ∧
    getClientIP ⟨"GET", "/api/news", "", " ", "203.0.113.7:443"⟩ = "203.0.113.7" ∧
    claimedClientIP ⟨"GET", "/api/news", "", " ", "203.0.113.7:443"⟩ ≠
      getClientIP ⟨"GET", "/api/news", "", " ", "203.0.113.7:443"⟩ := by
  refine ⟨by decide, by decide, by decide⟩

/-- C8 (amended): `X-Real-IP` if non-empty; otherwise the trimmed
first comma-separated entry of `X-Forwarded-For` when the header is
non-empty AND that trimmed entry is itself non-empty; otherwise the
host part of the transport-level remote address. -/
theorem getClientIP_precedence (req : Request) :
    getClientIP req =
      if req.xRealIP ≠ "" then req.xRealIP
      else if req.xForwardedFor ≠ "" ∧
          String.mk (trimChars ((splitOnChar ',' req.xForwardedFor.data).headD [])) ≠ "" then
        String.mk (trimChars ((splitOnChar ',' req.xForwardedFor.data).headD []))
      else splitHostPortHost req.remoteAddr := by
  by_cases h0 : req.xRealIP = ""
  · by_cases h1 : req.xForwardedFor = ""
    · simp [getClientIP, h0, h1]
    · by_cases h2 :
        String.mk (trimChars ((splitOnChar ',' req.xForwardedFor.data).headD [])) = ""
      · simp [getClientIP, h0, h1, h2]
      · simp [getClientIP, h0, h1, h2]
  · simp [getClientIP, h0]

/-- C5: when `news/news.json` is absent, GET `/api/news` answers 500
with the error-message body; the handler is a total function of the
request, so it returns normally rather than crashing. -/
theorem news_missing_file_500 (parse : Bytes → Except String (List NewsItem))
    (fs : FS) (t : Time) (req : Request)
    (hm : req.method ≠ "OPTIONS") (hfs : fs "news/news.json" = none) :
    (newsHandler parse fs t req).1.status = 500 ∧
    (newsHandler parse fs t req).1.body =
      .text ("Ошибка загрузки новостей: open news/news.json: no such file or directory" ++ "\n") := by
  simp [newsHandler, handleWithCORS, hm, loadNews, hfs, httpError]

/-- Witness for C5: a concrete empty filesystem. -/
theorem news_missing_file_500_witness :
    (newsHandler (fun _ => .error "e") (fun _ => none)
        ⟨"2026-10-11", "2026-10-11 00:00:00"⟩
        ⟨"GET", "/api/news", "", "", "203.0.113.7:443"⟩).1.status = 500 ∧
    (newsHandler (fun _ => .error "e") (fun _ => none)
        ⟨"2026-10-11", "2026-10-11 00:00:00"⟩
        ⟨"GET", "/api/news", "", "", "203.0.113.7:443"⟩).1.body =
      .text ("Ошибка загрузки новостей: open news/news.json: no such file or directory" ++ "\n") :=
  news_missing_file_500 (fun _ => .error "e") (fun _ => none)
    ⟨"2026-10-11", "2026-10-11 00:00:00"⟩
    ⟨"GET", "/api/news", "", "", "203.0.113.7:443"⟩ (by decide) rfl

/-- C4: when `news/news.json` holds bytes that decode to `items`, GET
`/api/news` answers 200 with the marshalled `NewsResponse`: a "news"
array of exactly `items.length` objects, one per item in order, each
carrying the item's id, title, content, image and date verbatim. -/
theorem news_roundtrip (parse : Bytes → Except String (List NewsItem))
    (fs : FS) (t : Time) (req : Request) (data : Bytes) (items : List NewsItem)
    (hm : req.method ≠ "OPTIONS") (hfs : fs "news/news.json" = some data)
    (hp : parse data = .ok items) :
    (newsHandler parse fs t req).1.status = 200 ∧
    (newsHandler parse fs t req).1.body =
      .json (.obj [("news", .arr (items.map encodeNewsItem))]) ∧
    (items.map encodeNewsItem).length = items.length ∧
    ∀ it : NewsItem, newsFields (encodeNewsItem it) =
      some (it.ID, it.Title, it.Content, it.Image, it.Date) := by
  refine ⟨?_, ?_, by simp, fun it => rfl⟩ <;>
    simp [newsHandler, handleWithCORS, hm, loadNews, hfs, hp, encodeNewsResponse]

/-- Witness for C4: a one-item news file round-trips. -/
theorem news_roundtrip_witness :
    (newsHandler (fun _ => .ok [⟨7, "t", "c", "img.jpg", "2026-01-01"⟩])
        (fun p => if p = "news/news.json" then some [123] else none)
        ⟨"2026-10-11", "2026-10-11 00:00:00"⟩
        ⟨"GET", "/api/news", "", "", "203.0.113.7:443"⟩).1.status = 200 ∧
    (newsHandler (fun _ => .ok [⟨7, "t", "c", "img.jpg", "2026-01-01"⟩])
        (fun p => if p = "news/news.json" then some [123] else none)
        ⟨"2026-10-11", "2026-10-11 00:00:00"⟩
        ⟨"GET", "/api/news", "", "", "203.0.113.7:443"⟩).1.body =
      .json (.obj [("news", .arr
        (([⟨7, "t", "c", "img.jpg", "2026-01-01"⟩] : List NewsItem).map encodeNewsItem))]) ∧
    (([⟨7, "t", "c", "img.jpg", "2026-01-01"⟩] : List NewsItem).map encodeNewsItem).length =
      ([⟨7, "t", "c", "img.jpg", "2026-01-01"⟩] : List NewsItem).length ∧
    ∀ it : NewsItem, newsFields (encodeNewsItem it) =
      some (it.ID, it.Title, it.Content, it.Image, it.Date) :=
  news_roundtrip (fun _ => .ok [⟨7, "t", "c", "img.jpg", "2026-01-01"⟩])
    (fun p => if p = "news/news.json" then some [123] else none)
    ⟨"2026-10-11", "2026-10-11 00:00:00"⟩
    ⟨"GET", "/api/news", "", "", "203.0.113.7:443"⟩ [123]
    [⟨7, "t", "c", "img.jpg", "2026-01-01"⟩] (by decide) (by decide) rfl

/-- C6: an OPTIONS request to any of the four API paths short-circuits
with status 200, an empty body, the three CORS headers, and an empty
list of filesystem operations. -/
theorem options_preflight (cfg : Config) (md5 : Bytes → Bytes)
    (parse : Bytes → Except String (List NewsItem)) (fs : FS) (fl : Faults)
    (t : Time) (req : Request)
    (hp : req.path ∈ apiPaths) (hm : req.method = "OPTIONS") :
    ∃ resp : Response, serveAPI cfg md5 parse fs fl t req = some (resp, []) ∧
      resp.status = 200 ∧ resp.body = .empty ∧
      resp.headers "Access-Control-Allow-Origin" = some "*" ∧
      resp.headers "Access-Control-Allow-Methods" = some "GET, OPTIONS" ∧
      resp.headers "Access-Control-Allow-Headers" = some "Content-Type" := by
  refine ⟨⟨200, corsHeaders emptyHeaders, .empty⟩, ?_, rfl, rfl, rfl, rfl, rfl⟩
  simp only [apiPaths, List.mem_cons, List.not_mem_nil, or_false] at hp
  rcases hp with h | h | h | h <;>
    simp [serveAPI, h, newsHandler, versionHandler, downloadLauncherHandler,
      downloadGameHandler, handleWithCORS, hm]

/-- Witness for C6: a concrete OPTIONS preflight to `/api/news`. -/
theorem options_preflight_witness :
    ∃ resp : Response,
      serveAPI (loadConfig fun _ => "") (fun _ => []) (fun _ => .error "e")
        (fun _ => none) noFaults ⟨"2026-10-11", "2026-10-11 00:00:00"⟩
        ⟨"OPTIONS", "/api/news", "", "", "203.0.113.7:443"⟩ = some (resp, []) ∧
      resp.status = 200 ∧ resp.body = .empty ∧
      resp.headers "Access-Control-Allow-Origin" = some "*" ∧
      resp.headers "Access-Control-Allow-Methods" = some "GET, OPTIONS" ∧
      resp.headers "Access-Control-Allow-Headers" = some "Content-Type" :=
  options_preflight (loadConfig fun _ => "") (fun _ => []) (fun _ => .error "e")
    (fun _ => none) noFaults ⟨"2026-10-11", "2026-10-11 00:00:00"⟩
    ⟨"OPTIONS", "/api/news", "", "", "203.0.113.7:443"⟩ (by decide) rfl

/-- C7: every handled (non-OPTIONS) request to an API endpoint
performs exactly one append among its filesystem operations: the line
`[timestamp] clientIP endpoint - marker` added to the daily file
`logs/access_<date>.log`, with the endpoint's category marker. -/
theorem access_log_single_append (cfg : Config) (md5 : Bytes → Bytes)
    (parse : Bytes → Except String (List NewsItem)) (fs : FS) (fl : Faults)
    (t : Time) (req : Request)
    (hp : req.path ∈ apiPaths) (hm : req.method ≠ "OPTIONS") :
    ∃ (resp : Response) (ops : List FsOp) (emoji : String),
      serveAPI cfg md5 parse fs fl t req = some (resp, ops) ∧
      appendsOf ops = [(logFilePath t, logEntry t (getClientIP req) req.path emoji)] ∧
      (emoji = "📰" ∨ emoji = "🔖" ∨ emoji = "⬇️") := by
  simp only [apiPaths, List.mem_cons, List.not_mem_nil, or_false] at hp
  rcases hp with h | h | h | h
  · refine ⟨(newsHandler parse fs t req).1, (newsHandler parse fs t req).2, "📰",
      by simp [serveAPI, h], ?_, Or.inl rfl⟩
    rw [h]
    cases hl : loadNews parse fs <;>
      simp [newsHandler, handleWithCORS, hm, hl, appendsOf, logToFileOps]
  · refine ⟨(versionHandler cfg t req).1, (versionHandler cfg t req).2, "🔖",
      by simp [serveAPI, h], ?_, Or.inr (Or.inl rfl)⟩
    rw [h]
    simp [versionHandler, handleWithCORS, hm, appendsOf, logToFileOps]
  · refine ⟨(downloadLauncherHandler cfg md5 fs fl t req).1,
      (downloadLauncherHandler cfg md5 fs fl t req).2, "⬇️",
      by simp [serveAPI, h], ?_, Or.inr (Or.inr rfl)⟩
    rw [h]
    have h2 : (downloadLauncherHandler cfg md5 fs fl t req).2 =
        (serveFileDownload md5 fs fl (corsHeaders emptyHeaders)
          (joinPath cfg.ClientsDir cfg.LauncherClient)).2
          ++ logToFileOps t (getClientIP req) "/api/download/launcher" "⬇️" := by
      simp [downloadLauncherHandler, handleWithCORS, hm]
    rw [h2, appendsOf_append, serveFileDownload_no_append]
    simp [appendsOf, logToFileOps]
  · refine ⟨(downloadGameHandler cfg md5 fs fl t req).1,
      (downloadGameHandler cfg md5 fs fl t req).2, "⬇️",
      by simp [serveAPI, h], ?_, Or.inr (Or.inr rfl)⟩
    rw [h]
    have h2 : (downloadGameHandler cfg md5 fs fl t req).2 =
        (serveFileDownload md5 fs fl (corsHeaders emptyHeaders)
          (joinPath cfg.ClientsDir cfg.GameClient)).2
          ++ logToFileOps t (getClientIP req) "/api/download/game" "⬇️" := by
      simp [downloadGameHandler, handleWithCORS, hm]
    rw [h2, appendsOf_append, serveFileDownload_no_append]
    simp [appendsOf, logToFileOps]

/-- Witness for C7: a concrete GET of `/api/version`. -/
theorem access_log_single_append_witness :
    ∃ (resp : Response) (ops : List FsOp) (emoji : String),
      serveAPI (loadConfig fun _ => "") (fun _ => []) (fun _ => .error "e")
        (fun _ => none) noFaults ⟨"2026-10-11", "2026-10-11 00:00:00"⟩
        ⟨"GET", "/api/version", "", "", "203.0.113.7:443"⟩ = some (resp, ops) ∧
      appendsOf ops = [(logFilePath ⟨"2026-10-11", "2026-10-11 00:00:00"⟩,
        logEntry ⟨"2026-10-11", "2026-10-11 00:00:00"⟩
          (getClientIP ⟨"GET", "/api/version", "", "", "203.0.113.7:443"⟩)
          "/api/version" emoji)] ∧
      (emoji = "📰" ∨ emoji = "🔖" ∨ emoji = "⬇️") :=
  access_log_single_append (loadConfig fun _ => "") (fun _ => []) (fun _ => .error "e")
    (fun _ => none) noFaults ⟨"2026-10-11", "2026-10-11 00:00:00"⟩
    ⟨"GET", "/api/version", "", "", "203.0.113.7:443"⟩ (by decide) (by decide)

/-- C1: a download request for an existing file (no I/O faults) is
answered with the file bytes as the body, `Content-Length` equal to
the byte count, the octet-stream content type, an attachment
disposition carrying the file's basename, and `X-File-Hash` equal to
the hex-encoded digest of the full contents. -/
theorem download_success_response (cfg : Config) (md5 : Bytes → Bytes)
    (parse : Bytes → Except String (List NewsItem)) (fs : FS)
    (t : Time) (req : Request) (path : String) (bytes : Bytes)
    (hm : req.method ≠ "OPTIONS")
    (ht : downloadTarget cfg req.path = some path)
    (hfs : fs path = some bytes)
    (hmd5 : md5 bytes ≠ []) :
    ∃ (resp : Response) (ops : List FsOp),
      serveAPI cfg md5 parse fs noFaults t req = some (resp, ops) ∧
      resp.status = 200 ∧
      resp.body = .bytes bytes ∧
      resp.headers "Content-Length" = some (toString bytes.length) ∧
      resp.headers "Content-Type" = some "application/octet-stream" ∧
      resp.headers "Content-Disposition" =
        some ("attachment; filename=" ++ baseName path) ∧
      resp.headers "X-File-Hash" = some (hexEncode (md5 bytes)) := by
  unfold downloadTarget at ht
  by_cases hl : req.path = "/api/download/launcher"
  · rw [if_pos hl] at ht
    injection ht with ht
    subst ht
    have hsfd := serveFileDownload_ok md5 fs (corsHeaders emptyHeaders)
      (joinPath cfg.ClientsDir cfg.LauncherClient) bytes hfs hmd5
    refine ⟨
      { status := 200,
        headers := setHeader (setHeader (setHeader (setHeader (corsHeaders emptyHeaders)
          "Content-Disposition"
          ("attachment; filename=" ++ baseName (joinPath cfg.ClientsDir cfg.LauncherClient)))
          "Content-Type" "application/octet-stream")
          "Content-Length" (toString bytes.length))
          "X-File-Hash" (hexEncode (md5 bytes)),
        body := .bytes bytes },
      [FsOp.stat (joinPath cfg.ClientsDir cfg.LauncherClient),
       FsOp.openFile (joinPath cfg.ClientsDir cfg.LauncherClient),
       FsOp.read (joinPath cfg.ClientsDir cfg.LauncherClient),
       FsOp.read (joinPath cfg.ClientsDir cfg.LauncherClient)] ++
        logToFileOps t (getClientIP req) "/api/download/launcher" "⬇️",
      ?_, rfl, rfl, ?_, ?_, ?_, ?_⟩
    · simp [serveAPI, hl, downloadLauncherHandler, handleWithCORS, hm, hsfd]
    all_goals simp [setHeader]
  · by_cases hg : req.path = "/api/download/game"
    · rw [if_neg hl, if_pos hg] at ht
      injection ht with ht
      subst ht
      have hsfd := serveFileDownload_ok md5 fs (corsHeaders emptyHeaders)
        (joinPath cfg.ClientsDir cfg.GameClient) bytes hfs hmd5
      refine ⟨
        { status := 200,
          headers := setHeader (setHeader (setHeader (setHeader (corsHeaders emptyHeaders)
            "Content-Disposition"
            ("attachment; filename=" ++ baseName (joinPath cfg.ClientsDir cfg.GameClient)))
            "Content-Type" "application/octet-stream")
            "Content-Length" (toString bytes.length))
            "X-File-Hash" (hexEncode (md5 bytes)),
          body := .bytes bytes },
        [FsOp.stat (joinPath cfg.ClientsDir cfg.GameClient),
         FsOp.openFile (joinPath cfg.ClientsDir cfg.GameClient),
         FsOp.read (joinPath cfg.ClientsDir cfg.GameClient),
         FsOp.read (joinPath cfg.ClientsDir cfg.GameClient)] ++
          logToFileOps t (getClientIP req) "/api/download/game" "⬇️",
        ?_, rfl, rfl, ?_, ?_, ?_, ?_⟩
      · simp [serveAPI, hl, hg, downloadGameHandler, handleWithCORS, hm, hsfd]
      all_goals simp [setHeader]
    · rw [if_neg hl, if_neg hg] at ht
      exact absurd ht (by simp)

/-- Witness for C1: a three-byte launcher file with a stub digest. -/
theorem download_success_response_witness :
    ∃ (resp : Response) (ops : List FsOp),
      serveAPI (loadConfig fun _ => "")
        (fun _ => [0, 1, 2, 3, 4, 5, 6, 7, 8, 9, 10, 11, 12, 13, 14, 15])
        (fun _ => .error "e")
        (fun p => if p = "clients/launcher.exe" then some [10, 20, 30] else none)
        noFaults ⟨"2026-10-11", "2026-10-11 00:00:00"⟩
        ⟨"GET", "/api/download/launcher", "", "", "203.0.113.7:443"⟩ =
          some (resp, ops) ∧
      resp.status = 200 ∧
      resp.body = .bytes [10, 20, 30] ∧
      resp.headers "Content-Length" = some (toString ([10, 20, 30] : Bytes).length) ∧
      resp.headers "Content-Type" = some "application/octet-stream" ∧
      resp.headers "Content-Disposition" =
        some ("attachment; filename=" ++ baseName "clients/launcher.exe") ∧
      resp.headers "X-File-Hash" =
        some (hexEncode [0, 1, 2, 3, 4, 5, 6, 7, 8, 9, 10, 11, 12, 13, 14, 15]) :=
  download_success_response (loadConfig fun _ => "")
    (fun _ => [0, 1, 2, 3, 4, 5, 6, 7, 8, 9, 10, 11, 12, 13, 14, 15])
    (fun _ => .error "e")
    (fun p => if p = "clients/launcher.exe" then some [10, 20, 30] else none)
    ⟨"2026-10-11", "2026-10-11 00:00:00"⟩
    ⟨"GET", "/api/download/launcher", "", "", "203.0.113.7:443"⟩
    "clients/launcher.exe" [10, 20, 30] (by decide) (by decide) (by decide) (by decide)

/-- C2: a download request whose resolved path has no file is answered
with status 404 and the fixed not-found text — in particular the body
is never a byte stream, so no bytes of any file are written. -/
theorem download_missing_404 (cfg : Config) (md5 : Bytes → Bytes)
    (parse : Bytes → Except String (List NewsItem)) (fs : FS) (fl : Faults)
    (t : Time) (req : Request) (path : String)
    (hm : req.method ≠ "OPTIONS")
    (ht : downloadTarget cfg req.path = some path)
    (hfs : fs path = none) :
    ∃ (resp : Response) (ops : List FsOp),
      serveAPI cfg md5 parse fs fl t req = some (resp, ops) ∧
      resp.status = 404 ∧
      resp.body = .text ("Файл не найден" ++ "\n") ∧
      ∀ bs : Bytes, resp.body ≠ .bytes bs := by
  unfold downloadTarget at ht
  by_cases hl : req.path = "/api/download/launcher"
  · rw [if_pos hl] at ht
    injection ht with ht
    subst ht
    refine ⟨httpError (corsHeaders emptyHeaders) 404 "Файл не найден",
      [FsOp.stat (joinPath cfg.ClientsDir cfg.LauncherClient)] ++
        logToFileOps t (getClientIP req) "/api/download/launcher" "⬇️",
      ?_, rfl, rfl, by simp [httpError]⟩
    simp [serveAPI, hl, downloadLauncherHandler, handleWithCORS, hm,
      serveFileDownload, hfs]
  · by_cases hg : req.path = "/api/download/game"
    · rw [if_neg hl, if_pos hg] at ht
      injection ht with ht
      subst ht
      refine ⟨httpError (corsHeaders emptyHeaders) 404 "Файл не найден",
        [FsOp.stat (joinPath cfg.ClientsDir cfg.GameClient)] ++
          logToFileOps t (getClientIP req) "/api/download/game" "⬇️",
        ?_, rfl, rfl, by simp [httpError]⟩
      simp [serveAPI, hl, hg, downloadGameHandler, handleWithCORS, hm,
        serveFileDownload, hfs]
    · rw [if_neg hl, if_neg hg] at ht
      exact absurd ht (by simp)

/-- Witness for C2: the empty filesystem and the default config. -/
theorem download_missing_404_witness :
    ∃ (resp : Response) (ops : List FsOp),
      serveAPI (loadConfig fun _ => "") (fun _ => []) (fun _ => .error "e")
        (fun _ => none) noFaults ⟨"2026-10-11", "2026-10-11 00:00:00"⟩
        ⟨"GET", "/api/download/launcher", "", "", "203.0.113.7:443"⟩ =
          some (resp, ops) ∧
      resp.status = 404 ∧
      resp.body = .text ("Файл не найден" ++ "\n") ∧
      ∀ bs : Bytes, resp.body ≠ .bytes bs :=
  download_missing_404 (loadConfig fun _ => "") (fun _ => []) (fun _ => .error "e")
    (fun _ => none) noFaults ⟨"2026-10-11", "2026-10-11 00:00:00"⟩
    ⟨"GET", "/api/download/launcher", "", "", "203.0.113.7:443"⟩
    "clients/launcher.exe" (by decide) (by decide) rfl

/-- C3: when only the hash pass fails on an existing file, the
download still succeeds in full — status 200, attachment headers and
the complete file bytes — with the `X-File-Hash` header absent (the
error is merely logged inside `serveFileDownload`). -/
theorem download_hash_failure_still_serves (cfg : Config) (md5 : Bytes → Bytes)
    (parse : Bytes → Except String (List NewsItem)) (fs : FS)
    (t : Time) (req : Request) (path : String) (bytes : Bytes)
    (hm : req.method ≠ "OPTIONS")
    (ht : downloadTarget cfg req.path = some path)
    (hfs : fs path = some bytes) :
    ∃ (resp : Response) (ops : List FsOp),
      serveAPI cfg md5 parse fs ⟨false, false, true⟩ t req = some (resp, ops) ∧
      resp.status = 200 ∧
      resp.body = .bytes bytes ∧
      resp.headers "Content-Length" = some (toString bytes.length) ∧
      resp.headers "Content-Type" = some "application/octet-stream" ∧
      resp.headers "Content-Disposition" =
        some ("attachment; filename=" ++ baseName path) ∧
      resp.headers "X-File-Hash" = none := by
  unfold downloadTarget at ht
  by_cases hl : req.path = "/api/download/launcher"
  · rw [if_pos hl] at ht
    injection ht with ht
    subst ht
    have hsfd := serveFileDownload_hashFault md5 fs (corsHeaders emptyHeaders)
      (joinPath cfg.ClientsDir cfg.LauncherClient) bytes hfs
    refine ⟨
      { status := 200,
        headers := setHeader (setHeader (setHeader (corsHeaders emptyHeaders)
          "Content-Disposition"
          ("attachment; filename=" ++ baseName (joinPath cfg.ClientsDir cfg.LauncherClient)))
          "Content-Type" "application/octet-stream")
          "Content-Length" (toString bytes.length),
        body := .bytes bytes },
      [FsOp.stat (joinPath cfg.ClientsDir cfg.LauncherClient),
       FsOp.openFile (joinPath cfg.ClientsDir cfg.LauncherClient),
       FsOp.read (joinPath cfg.ClientsDir cfg.LauncherClient),
       FsOp.read (joinPath cfg.ClientsDir cfg.LauncherClient)] ++
        logToFileOps t (getClientIP req) "/api/download/launcher" "⬇️",
      ?_, rfl, rfl, ?_, ?_, ?_, ?_⟩
    · simp [serveAPI, hl, downloadLauncherHandler, handleWithCORS, hm, hsfd]
    all_goals simp [setHeader, corsHeaders, emptyHeaders]
  · by_cases hg : req.path = "/api/download/game"
    · rw [if_neg hl, if_pos hg] at ht
      injection ht with ht
      subst ht
      have hsfd := serveFileDownload_hashFault md5 fs (corsHeaders emptyHeaders)
        (joinPath cfg.ClientsDir cfg.GameClient) bytes hfs
      refine ⟨
        { status := 200,
          headers := setHeader (setHeader (setHeader (corsHeaders emptyHeaders)
            "Content-Disposition"
            ("attachment; filename=" ++ baseName (joinPath cfg.ClientsDir cfg.GameClient)))
            "Content-Type" "application/octet-stream")
            "Content-Length" (toString bytes.length),
          body := .bytes bytes },
        [FsOp.stat (joinPath cfg.ClientsDir cfg.GameClient),
         FsOp.openFile (joinPath cfg.ClientsDir cfg.GameClient),
         FsOp.read (joinPath cfg.ClientsDir cfg.GameClient),
         FsOp.read (joinPath cfg.ClientsDir cfg.GameClient)] ++
          logToFileOps t (getClientIP req) "/api/download/game" "⬇️",
        ?_, rfl, rfl, ?_, ?_, ?_, ?_⟩
      · simp [serveAPI, hl, hg, downloadGameHandler, handleWithCORS, hm, hsfd]
      all_goals simp [setHeader, corsHeaders, emptyHeaders]
    · rw [if_neg hl, if_neg hg] at ht
      exact absurd ht (by simp)

/-- Witness for C3: a hash fault on a concrete three-byte file. -/
theorem download_hash_failure_still_serves_witness :
    ∃ (resp : Response) (ops : List FsOp),
      serveAPI (loadConfig fun _ => "") (fun _ => [])
        (fun _ => .error "e")
        (fun p => if p = "clients/launcher.exe" then some [10, 20, 30] else none)
        ⟨false, false, true⟩ ⟨"2026-10-11", "2026-10-11 00:00:00"⟩
        ⟨"GET", "/api/download/launcher", "", "", "203.0.113.7:443"⟩ =
          some (resp, ops) ∧
      resp.status = 200 ∧
      resp.body = .bytes [10, 20, 30] ∧
      resp.headers "Content-Length" = some (toString ([10, 20, 30] : Bytes).length) ∧
      resp.headers "Content-Type" = some "application/octet-stream" ∧
      resp.headers "Content-Disposition" =
        some ("attachment; filename=" ++ baseName "clients/launcher.exe") ∧
      resp.headers "X-File-Hash" = none :=
  download_hash_failure_still_serves (loadConfig fun _ => "") (fun _ => [])
    (fun _ => .error "e")
    (fun p => if p = "clients/launcher.exe" then some [10, 20, 30] else none)
    ⟨"2026-10-11", "2026-10-11 00:00:00"⟩
    ⟨"GET", "/api/download/launcher", "", "", "203.0.113.7:443"⟩
    "clients/launcher.exe" [10, 20, 30] (by decide) (by decide) (by decide)

/-- The empty needle occurs in every haystack. -/
theorem listInfix_nil (l : List Char) : listInfix [] l = true := by
  cases l with
  | nil => rfl
  | cons c t => simp [listInfix, leadsList]

/-- A list occurs at the start of itself followed by anything. -/
theorem leadsList_append (cs ds : List Char) : leadsList cs (cs ++ ds) = true := by
  induction cs with
  | nil => rfl
  | cons a t ih => simp [leadsList, ih]

/-- A list occurs inside anything of the shape `pre ++ (it ++ suf)`. -/
theorem listInfix_append (pre n suf : List Char) :
    listInfix n (pre ++ (n ++ suf)) = true := by
  induction pre with
  | nil =>
    cases n with
    | nil => exact listInfix_nil suf
    | cons a t =>
      have h := leadsList_append (a :: t) suf
      rw [List.cons_append] at h
      simp [listInfix, h]
  | cons c t ih => simp [listInfix, ih]

/-- A string interpolated between a prefix and a suffix occurs in the
result: this is what "the message is interpolated into the body"
means formally. -/
theorem containsSub_middle (pre e suf : String) :
    containsSub (pre ++ e ++ suf) e = true := by
  obtain ⟨pd⟩ := pre
  obtain ⟨ed⟩ := e
  obtain ⟨sd⟩ := suf
  show listInfix ed ((pd ++ ed) ++ sd) = true
  rw [List.append_assoc]
  exact listInfix_append pd ed sd

/-- C9 (amended): every handler error response is plain text
(`Content-Type: text/plain; charset=utf-8`, a text body, no
structured payload); the news handler interpolates the underlying
error message into its body, while the download 404 and the 500s for
open failure and fstat failure use fixed human-readable messages. -/
theorem error_responses_plain_text :
    (∀ (parse : Bytes → Except String (List NewsItem)) (fs : FS) (t : Time)
        (req : Request) (e : String), req.method ≠ "OPTIONS" →
      loadNews parse fs = .error e →
      (newsHandler parse fs t req).1.status = 500 ∧
      (newsHandler parse fs t req).1.body =
        .text ("Ошибка загрузки новостей: " ++ e ++ "\n") ∧
      (newsHandler parse fs t req).1.headers "Content-Type" =
        some "text/plain; charset=utf-8" ∧
      containsSub ("Ошибка загрузки новостей: " ++ e ++ "\n") e = true) ∧
    (∀ (md5 : Bytes → Bytes) (fs : FS) (fl : Faults) (h : Headers) (p : String),
      fs p = none →
      (serveFileDownload md5 fs fl h p).1.status = 404 ∧
      (serveFileDownload md5 fs fl h p).1.body = .text ("Файл не найден" ++ "\n") ∧
      (serveFileDownload md5 fs fl h p).1.headers "Content-Type" =
        some "text/plain; charset=utf-8") ∧
    (∀ (md5 : Bytes → Bytes) (fs : FS) (fl : Faults) (h : Headers) (p : String)
        (bytes : Bytes),
      fs p = some bytes → fl.openFault = true →
      (serveFileDownload md5 fs fl h p).1.status = 500 ∧
      (serveFileDownload md5 fs fl h p).1.body =
        .text ("Ошибка открытия файла" ++ "\n") ∧
      (serveFileDownload md5 fs fl h p).1.headers "Content-Type" =
        some "text/plain; charset=utf-8") ∧
    (∀ (md5 : Bytes → Bytes) (fs : FS) (fl : Faults) (h : Headers) (p : String)
        (bytes : Bytes),
      fs p = some bytes → fl.openFault = false → fl.statFault = true →
      (serveFileDownload md5 fs fl h p).1.status = 500 ∧
      (serveFileDownload md5 fs fl h p).1.body =
        .text ("Ошибка получения информации о файле" ++ "\n") ∧
      (serveFileDownload md5 fs fl h p).1.headers "Content-Type" =
        some "text/plain; charset=utf-8") := by
  refine ⟨fun parse fs t req e hm hl => ?_, fun md5 fs fl h p hfs => ?_,
    fun md5 fs fl h p bytes hfs hof => ?_,
    fun md5 fs fl h p bytes hfs hof hst => ?_⟩
  · refine ⟨?_, ?_, ?_, containsSub_middle "Ошибка загрузки новостей: " e "\n"⟩ <;>
      simp [newsHandler, handleWithCORS, hm, hl, httpError, setHeader]
  · refine ⟨?_, ?_, ?_⟩ <;> simp [serveFileDownload, hfs, httpError, setHeader]
  · refine ⟨?_, ?_, ?_⟩ <;> simp [serveFileDownload, hfs, hof, httpError, setHeader]
  · refine ⟨?_, ?_, ?_⟩ <;>
      simp [serveFileDownload, hfs, hof, hst, httpError, setHeader]

/-- Witness for C9 (amended): each error path at a concrete input. -/
theorem error_responses_plain_text_witness :
    ((newsHandler (fun _ => .error "x")
        (fun p => if p = "news/news.json" then some [1] else none)
        ⟨"2026-10-11", "2026-10-11 00:00:00"⟩
        ⟨"GET", "/api/news", "", "", "203.0.113.7:443"⟩).1.status = 500 ∧
      (newsHandler (fun _ => .error "x")
        (fun p => if p = "news/news.json" then some [1] else none)
        ⟨"2026-10-11", "2026-10-11 00:00:00"⟩
        ⟨"GET", "/api/news", "", "", "203.0.113.7:443"⟩).1.body =
        .text ("Ошибка загрузки новостей: " ++ "x" ++ "\n") ∧
      (newsHandler (fun _ => .error "x")
        (fun p => if p = "news/news.json" then some [1] else none)
        ⟨"2026-10-11", "2026-10-11 00:00:00"⟩
        ⟨"GET", "/api/news", "", "", "203.0.113.7:443"⟩).1.headers "Content-Type" =
        some "text/plain; charset=utf-8" ∧
      containsSub ("Ошибка загрузки новостей: " ++ "x" ++ "\n") "x" = true) ∧
    ((serveFileDownload (fun _ => []) (fun _ => none) noFaults emptyHeaders
        "clients/launcher.exe").1.status = 404 ∧
      (serveFileDownload (fun _ => []) (fun _ => none) noFaults emptyHeaders
        "clients/launcher.exe").1.body = .text ("Файл не найден" ++ "\n") ∧
      (serveFileDownload (fun _ => []) (fun _ => none) noFaults emptyHeaders
        "clients/launcher.exe").1.headers "Content-Type" =
        some "text/plain; charset=utf-8") ∧
    ((serveFileDownload (fun _ => []) (fun _ => some [1]) ⟨true, false, false⟩
        emptyHeaders "clients/launcher.exe").1.status = 500 ∧
      (serveFileDownload (fun _ => []) (fun _ => some [1]) ⟨true, false, false⟩
        emptyHeaders "clients/launcher.exe").1.body =
        .text ("Ошибка открытия файла" ++ "\n") ∧
      (serveFileDownload (fun _ => []) (fun _ => some [1]) ⟨true, false, false⟩
        emptyHeaders "clients/launcher.exe").1.headers "Content-Type" =
        some "text/plain; charset=utf-8") ∧
    ((serveFileDownload (fun _ => []) (fun _ => some [1]) ⟨false, true, false⟩
        emptyHeaders "clients/launcher.exe").1.status = 500 ∧
      (serveFileDownload (fun _ => []) (fun _ => some [1]) ⟨false, true, false⟩
        emptyHeaders "clients/launcher.exe").1.body =
        .text ("Ошибка получения информации о файле" ++ "\n") ∧
      (serveFileDownload (fun _ => []) (fun _ => some [1]) ⟨false, true, false⟩
        emptyHeaders "clients/launcher.exe").1.headers "Content-Type" =
        some "text/plain; charset=utf-8") :=
  ⟨error_responses_plain_text.1 (fun _ => .error "x")
      (fun p => if p = "news/news.json" then some [1] else none)
      ⟨"2026-10-11", "2026-10-11 00:00:00"⟩
      ⟨"GET", "/api/news", "", "", "203.0.113.7:443"⟩ "x" (by decide) rfl,
    error_responses_plain_text.2.1 (fun _ => []) (fun _ => none) noFaults
      emptyHeaders "clients/launcher.exe" rfl,
    error_responses_plain_text.2.2.1 (fun _ => []) (fun _ => some [1])
      ⟨true, false, false⟩ emptyHeaders "clients/launcher.exe" [1] rfl rfl,
    error_responses_plain_text.2.2.2 (fun _ => []) (fun _ => some [1])
      ⟨false, true, false⟩ emptyHeaders "clients/launcher.exe" [1] rfl rfl rfl⟩

/-- C9 counterexample: the download not-found response is a handler
error response (status 404) whose body is the fixed not-found text,
which does NOT contain the underlying `os.Stat` error message — so the
claim that every error body interpolates the underlying error is
false at this input. -/
theorem error_interpolation_counterexample :
    (serveFileDownload (fun _ => []) (fun _ => none) noFaults emptyHeaders
      "clients/launcher.exe").1.status = 404 ∧
    (serveFileDownload (fun _ => []) (fun _ => none) noFaults emptyHeaders
      "clients/launcher.exe").1.body = .text ("Файл не найден" ++ "\n") ∧
    containsSub ("Файл не найден" ++ "\n")
      (statErrorMessage "clients/launcher.exe") = false :=
  ⟨rfl, rfl, by decide⟩

end LoilServer
